import Mathlib

/-!
Verification of the building-window-analysis pixel classifier.

The repository classifies pixels of RGB mask rasters as window / wall /
background by color-dominance thresholds, aggregates counts, computes a
window-to-facade ratio and composites a tinted visualization.  The numpy
arrays are loaded with `.astype(int)`, so channel arithmetic is over
unbounded integers; channels read from an 8-bit image are naturals, so we
model a pixel as three naturals.  A raster is a list of rows of pixels.
-/

/-- Pixel with three channels, as read from an RGB image (each 0..255 in
practice; arithmetic in the source is over Python ints after `astype(int)`). -/
structure Pixel where
  r : Nat
  g : Nat
  b : Nat
deriving DecidableEq, Repr

/-- A raster is a list of rows of pixels (numpy array of shape h x w x 3). -/
abbrev Raster := List (List Pixel)

/-- A boolean mask grid, the result of an elementwise predicate (numpy boolean
array of shape h x w). -/
abbrev BoolGrid := List (List Bool)

/-- Row lengths of a grid: the shape information numpy checks when indexing
with a boolean mask. -/
def gridShape {α : Type} (g : List (List α)) : List Nat :=
  g.map List.length

/-- Elementwise predicate over one raster, e.g.
`(arr[:,:,0] > 80) & ...` producing a boolean array. -/
def gridMap (pred : Pixel → Bool) (img : Raster) : BoolGrid :=
  img.map (List.map pred)

/-- Elementwise predicate over two rasters of equal shape (numpy broadcasting
of two h x w arrays), e.g. the facade mask of `calculate_ratio` which reads
both the facade image and the windows image. -/
def gridMap2 (pred : Pixel → Pixel → Bool) (a b : Raster) : BoolGrid :=
  (a.zip b).map (fun rp => (rp.1.zip rp.2).map (fun q => pred q.1 q.2))

/-- `int(np.sum(mask))`: the number of `true` entries of a boolean grid. -/
def gridCount (g : BoolGrid) : Nat :=
  (g.map (fun row => (row.filter id).length)).sum

/-- One channel of `(v * 0.W + c * 0.H).astype(np.uint8)` where the source
weights are tenths (0.3/0.7, 0.5/0.5, 0.7/0.3): `wOrig` and `wHigh` are the
numerators over 10.  The exact value `v*wOrig/10 + c*wHigh/10` is truncated
(floor, equal to C truncation since it is nonnegative) and wrapped to uint8,
i.e. `(v * wOrig + c * wHigh) / 10 % 256` in natural arithmetic. -/
def blendChannel (wOrig wHigh : Nat) (v c : Nat) : Nat :=
  ((v * wOrig + c * wHigh) / 10) % 256

/-- Per-pixel blend of an original pixel `v` with a highlight color `c`,
weights in tenths. -/
def blendPixel (wOrig wHigh : Nat) (v c : Pixel) : Pixel :=
  ⟨blendChannel wOrig wHigh v.r c.r,
   blendChannel wOrig wHigh v.g c.g,
   blendChannel wOrig wHigh v.b c.b⟩

/-- `img[mask] = tint(img[mask])` without the shape check: rewrite exactly the
pixels the mask flags. -/
def applyTintGrid (tint : Pixel → Pixel) (mask : BoolGrid) (img : Raster) : Raster :=
  (img.zip mask).map (fun rp => (rp.1.zip rp.2).map (fun q => if q.2 then tint q.1 else q.1))

namespace RunPipeline

/-- `run_pipeline.count_pixels`, window predicate (lines 23-27):
`(arr[:,:,0] > 80) & (arr[:,:,0] > arr[:,:,1] + 30) & (arr[:,:,0] > arr[:,:,2] + 30)`. -/
def window_mask (p : Pixel) : Bool :=
  decide (80 < p.r) && decide (p.g + 30 < p.r) && decide (p.b + 30 < p.r)

/-- `run_pipeline.count_pixels`, wall predicate (lines 30-34):
`(arr[:,:,2] > 60) & (arr[:,:,2] > arr[:,:,0] + 15) & ((arr[:,:,2] > arr[:,:,1]) | (arr[:,:,1] > 60))`. -/
def wall_mask (p : Pixel) : Bool :=
  decide (60 < p.b) && decide (p.r + 15 < p.b) && (decide (p.g < p.b) || decide (60 < p.g))

/-- Return value of `run_pipeline.count_pixels`: the two counts and the two
boolean grids. -/
structure PixelCounts where
  window_px : Nat
  wall_px : Nat
  window_grid : BoolGrid
  wall_grid : BoolGrid
deriving Repr

/-- `run_pipeline.count_pixels` on an in-memory raster. -/
def count_pixels (arr : Raster) : PixelCounts :=
  let wg := gridMap window_mask arr
  let bg := gridMap wall_mask arr
  { window_px := gridCount wg, wall_px := gridCount bg, window_grid := wg, wall_grid := bg }

/-- Result of the pixel-math section of `run_pipeline.run` (lines 100-121):
counts, facade total, ratio, and which branch of `if facade_px > 0` was taken
(`no_facade` records the `ERROR: No facade detected` branch, where `w_ratio`
is set to 0 and no division is performed). -/
structure RunResult where
  window_px : Nat
  wall_px : Nat
  facade_px : Nat
  w_ratio : ℚ
  no_facade : Bool
deriving Repr

/-- Pixel-math of `run_pipeline.run`: `facade_px = window_px + wall_px`;
`w_ratio = window_px / facade_px` when positive, else the no-facade state. -/
def run_counts (arr : Raster) : RunResult :=
  let pixels := count_pixels arr
  let facade_px := pixels.window_px + pixels.wall_px
  if 0 < facade_px then
    { window_px := pixels.window_px, wall_px := pixels.wall_px, facade_px := facade_px,
      w_ratio := (pixels.window_px : ℚ) / (facade_px : ℚ), no_facade := false }
  else
    { window_px := pixels.window_px, wall_px := pixels.wall_px, facade_px := facade_px,
      w_ratio := 0, no_facade := true }

/-- `make_visualization` window predicate `wm` (line 55), written out inline in
the source with the same thresholds as `count_pixels`. -/
def wm (p : Pixel) : Bool :=
  decide (80 < p.r) && decide (p.g + 30 < p.r) && decide (p.b + 30 < p.r)

/-- `make_visualization` simplified wall predicate `bm` (line 56):
`(arr[:,:,2] > 60) & (arr[:,:,2] > arr[:,:,0] + 15)` — without the cyan disjunct. -/
def bm (p : Pixel) : Bool :=
  decide (60 < p.b) && decide (p.r + 15 < p.b)

/-- `make_visualization` line 58: `orig[wm] = (orig[wm] * 0.3 + [255,30,30] * 0.7)`. -/
def window_tint (p : Pixel) : Pixel :=
  blendPixel 3 7 p ⟨255, 30, 30⟩

/-- `make_visualization` line 59: `orig[bm] = (orig[bm] * 0.5 + [50,100,255] * 0.5)`. -/
def wall_tint (p : Pixel) : Pixel :=
  blendPixel 5 5 p ⟨50, 100, 255⟩

end RunPipeline

namespace Oneshot

/-- `analyze_oneshot.analyze_building` window predicate (lines 101-105), the
same red-dominance rule as `count_pixels`. -/
def window_mask (p : Pixel) : Bool :=
  decide (80 < p.r) && decide (p.g + 30 < p.r) && decide (p.b + 30 < p.r)

/-- `analyze_oneshot.analyze_building` wall predicate (lines 109-113), the
full blue-dominance rule with the cyan disjunct. -/
def wall_mask (p : Pixel) : Bool :=
  decide (60 < p.b) && decide (p.r + 15 < p.b) && (decide (p.g < p.b) || decide (60 < p.g))

/-- Return value of `analyze_building` (lines 176-181) together with the
branch taken at `if facade_px > 0` (line 129): in the else branch `w_ratio`
is set to 0 and `ERROR: No facade detected` is printed, with no division. -/
structure AnalysisResult where
  window_pixels : Nat
  wall_pixels : Nat
  facade_pixels : Nat
  window_ratio : ℚ
  no_facade : Bool
deriving Repr

/-- Pixel-counting section of `analyze_building` (lines 98-136). -/
def analyze_counts (arr : Raster) : AnalysisResult :=
  let window_px := gridCount (gridMap window_mask arr)
  let wall_px := gridCount (gridMap wall_mask arr)
  let facade_px := window_px + wall_px
  if 0 < facade_px then
    { window_pixels := window_px, wall_pixels := wall_px, facade_pixels := facade_px,
      window_ratio := (window_px : ℚ) / (facade_px : ℚ), no_facade := false }
  else
    { window_pixels := window_px, wall_pixels := wall_px, facade_pixels := facade_px,
      window_ratio := 0, no_facade := true }

/-- `analyze_building` line 161: `orig[window_mask_r] = (orig[...] * 0.3 + [255,30,30] * 0.7)`. -/
def window_tint (p : Pixel) : Pixel :=
  blendPixel 3 7 p ⟨255, 30, 30⟩

/-- `analyze_building` line 163: `orig[wall_mask_r] = (orig[...] * 0.5 + [50,100,255] * 0.5)`. -/
def wall_tint (p : Pixel) : Pixel :=
  blendPixel 5 5 p ⟨50, 100, 255⟩

/-- State of the visualization section of `analyze_building` (lines 138-165):
`cleaned` and `mask` are the input rasters, `orig` is the working copy
created by `np.array(cleaned.convert("RGB")).copy()`.  The two masked
assignments write to `orig` only. -/
structure VisState where
  cleaned : Raster
  mask : Raster
  orig : Raster
deriving Repr

/-- Lines 161-163 in the equal-dimensions case (`window_mask_r = window_mask`
etc.): tint windows then walls, on the working copy only. -/
def vis_update (s : VisState) : VisState :=
  { s with
    orig := applyTintGrid wall_tint (gridMap wall_mask s.mask)
              (applyTintGrid window_tint (gridMap window_mask s.mask) s.orig) }

end Oneshot

namespace StepCalc

/-- `step3_calculate.calculate_ratio` window predicate (lines 20-24), applied
to the windows-mask image: the same absolute red-dominance thresholds as the
combined-mask rule.  Note: despite the module docstring, no difference
against the original image is computed. -/
def window_mask (p : Pixel) : Bool :=
  decide (80 < p.r) && decide (p.g + 30 < p.r) && decide (p.b + 30 < p.r)

/-- `calculate_ratio` facade color rule (lines 29-35), applied to the
facade-mask image. -/
def facade_color (p : Pixel) : Bool :=
  decide (60 < p.b) && decide (p.r + 15 < p.b) && (decide (p.g < p.b) || decide (60 < p.g))

/-- `calculate_ratio` line 37: the facade mask additionally excludes any pixel
whose red channel in the WINDOWS image exceeds 150:
`facade_mask = facade_mask & ~(windows_img[:,:,0] > 150)`. -/
def facade_mask (wpx fpx : Pixel) : Bool :=
  facade_color fpx && ! decide (150 < wpx.r)

/-- Return value of `calculate_ratio` (line 84) plus the branch taken at
`if facade_pixels > 0` (line 52).  `wall_pixels` is only assigned inside the
positive branch (line 54), hence an `Option`. -/
structure CalcResult where
  window_pixels : Nat
  facade_pixels : Nat
  wall_pixels : Option ℤ
  ratio : ℚ
  no_facade : Bool
deriving Repr

/-- Counting and ratio section of `calculate_ratio` (lines 20-62):
`window_pixels` is counted from the windows mask and `facade_pixels`
independently from the facade mask (with the red exclusion reading the
windows image). -/
def calculate_ratio_counts (windows_img facade_img : Raster) : CalcResult :=
  let window_pixels := gridCount (gridMap window_mask windows_img)
  let facade_pixels := gridCount (gridMap2 facade_mask windows_img facade_img)
  if 0 < facade_pixels then
    { window_pixels := window_pixels, facade_pixels := facade_pixels,
      wall_pixels := some ((facade_pixels : ℤ) - (window_pixels : ℤ)),
      ratio := (window_pixels : ℚ) / (facade_pixels : ℚ), no_facade := false }
  else
    { window_pixels := window_pixels, facade_pixels := facade_pixels,
      wall_pixels := none, ratio := 0, no_facade := true }

/-- `calculate_ratio` line 68: `vis[facade_mask] = (vis[...] * 0.7 + [50,100,255] * 0.3)`
— the facade (wall-role) tint of this path keeps 70% of the original. -/
def facade_tint (p : Pixel) : Pixel :=
  blendPixel 7 3 p ⟨50, 100, 255⟩

/-- `calculate_ratio` line 70: `vis[window_mask] = (vis[...] * 0.3 + [255,30,30] * 0.7)`. -/
def window_tint (p : Pixel) : Pixel :=
  blendPixel 3 7 p ⟨255, 30, 30⟩

end StepCalc

/-- Failure of a numpy boolean-mask assignment `img[mask] = ...`: numpy raises
an IndexError when the boolean index shape does not match the array shape.
The spec calls this condition `DimensionMismatch`. -/
inductive VisError where
  | DimensionMismatch
deriving DecidableEq, Repr

/-- `img[mask] = tint(img[mask])` with numpy's shape check: succeeds exactly
when the boolean index has the array's shape, otherwise fails (IndexError,
the spec's `DimensionMismatch`). -/
def maskedAssign (tint : Pixel → Pixel) (mask : BoolGrid) (img : Raster) :
    Except VisError Raster :=
  if gridShape mask = gridShape img then
    Except.ok (applyTintGrid tint mask img)
  else
    Except.error VisError.DimensionMismatch

namespace StepCalc

/-- Visualization section of `calculate_ratio` (lines 64-70): load the
cleaned image as `vis`, then `vis[facade_mask] = ...` (line 68) and
`vis[window_mask] = ...` (line 70).  There is no resize step in this path,
so either masked assignment fails when the mask shape differs from `vis`. -/
def calc_visualization (windows_img facade_img vis : Raster) :
    Except VisError Raster := do
  let fgrid := gridMap2 facade_mask windows_img facade_img
  let wgrid := gridMap window_mask windows_img
  let v1 ← maskedAssign facade_tint fgrid vis
  maskedAssign window_tint wgrid v1

/-- State of the visualization section of `calculate_ratio` in the
equal-dimensions case: `orig`, `windows_img` and `facade_img` are the loaded
inputs; `vis` is the fresh copy of the cleaned image made at line 65
(`np.array(Image.open(cleaned_path).convert("RGB")).copy()`).  Lines 68 and
70 assign to `vis` only. -/
structure VisState where
  orig : Raster
  windows_img : Raster
  facade_img : Raster
  vis : Raster
deriving Repr

/-- Lines 68-70 as a state update: facade tint then window tint, both on
`vis`. -/
def vis_update (s : VisState) : VisState :=
  { s with
    vis := applyTintGrid window_tint (gridMap window_mask s.windows_img)
             (applyTintGrid facade_tint (gridMap2 facade_mask s.windows_img s.facade_img) s.vis) }

end StepCalc

namespace RunPipeline

/-- State of `make_visualization` (lines 45-59) in the equal-size case:
`base` and `mask_img` are the input rasters, `orig` the working copy from
`np.array(Image.open(base_path).convert("RGB")).copy()`.  Lines 58-59 assign
to `orig` only. -/
structure VisState where
  base : Raster
  mask_img : Raster
  orig : Raster
deriving Repr

/-- Lines 58-59 as a state update: window tint then wall tint on the copy. -/
def vis_update (s : VisState) : VisState :=
  { s with
    orig := applyTintGrid wall_tint (gridMap bm s.mask_img)
              (applyTintGrid window_tint (gridMap wm s.mask_img) s.orig) }

end RunPipeline

namespace StepSegment

/-- `step2_segment.count_color_pixels` per-pixel test (lines 44-48): all
three channel distances to the target color strictly below the tolerance. -/
def close_to (target : Pixel) (tolerance : Nat) (p : Pixel) : Bool :=
  decide (((p.r : ℤ) - (target.r : ℤ)).natAbs < tolerance) &&
  decide (((p.g : ℤ) - (target.g : ℤ)).natAbs < tolerance) &&
  decide (((p.b : ℤ) - (target.b : ℤ)).natAbs < tolerance)

/-- `step2_segment.count_color_pixels`: the number of pixels close to the
target color. -/
def count_color_pixels (img : Raster) (target : Pixel) (tolerance : Nat) : Nat :=
  gridCount (gridMap (close_to target tolerance) img)

end StepSegment

/-- Modelled from the spec: the secondary overlay-on-photo Window predicate
`mask.R - reference.R > 30` (red-channel delta against the reference raster).
No function in the repository computes this; only the docstring of
`step3_calculate.py` mentions a difference against the original. -/
def overlay_window_delta (maskPx refPx : Pixel) : Bool :=
  decide ((refPx.r : ℤ) + 30 < (maskPx.r : ℤ))

/-- Follows the spec's words (§4.4): Window pixels blend the reference color
with a highlight at 70% highlight / 30% original. -/
def spec_window_blend (orig highlight : Pixel) : Pixel :=
  blendPixel 3 7 orig highlight

/-- Follows the spec's words (§4.4): Wall pixels blend at 50% highlight /
50% original. -/
def spec_wall_blend (orig highlight : Pixel) : Pixel :=
  blendPixel 5 5 orig highlight

/-- A 1x2 windows mask: a pure-red pixel and a dimmer red pixel.  Both pass
the window rule; only the first passes the `R > 150` exclusion threshold. -/
def twoPixelWindows : Raster := [[⟨255, 0, 0⟩, ⟨100, 0, 0⟩]]

/-- A 1x2 facade mask: both pixels pure blue. -/
def twoPixelFacade : Raster := [[⟨0, 0, 255⟩, ⟨0, 0, 255⟩]]

/-- 10x10 windows mask, uniformly pure red `(255,0,0)`. -/
def allRed10 : Raster := List.replicate 10 (List.replicate 10 ⟨255, 0, 0⟩)

/-- 10x10 facade mask, uniformly pure blue `(0,0,255)`. -/
def allBlue10 : Raster := List.replicate 10 (List.replicate 10 ⟨0, 0, 255⟩)

/-- 10x10 combined mask: row 0 has five red pixels `(255,0,0)` then five blue
pixels `(0,0,255)`; the remaining nine rows are black `(0,0,0)`. -/
def mask10 : Raster :=
  (List.replicate 5 ⟨255, 0, 0⟩ ++ List.replicate 5 ⟨0, 0, 255⟩) ::
    List.replicate 9 (List.replicate 10 ⟨0, 0, 0⟩)

/-- Uniform all-black raster of the given height and width. -/
def allBlack (h w : Nat) : Raster := List.replicate h (List.replicate w ⟨0, 0, 0⟩)

/-- 50x50 all-black windows mask (for the dimension-mismatch scenario). -/
def wmask50 : Raster := List.replicate 50 (List.replicate 50 ⟨0, 0, 0⟩)

/-- 50x50 all-blue facade mask (for the dimension-mismatch scenario). -/
def fmask50 : Raster := List.replicate 50 (List.replicate 50 ⟨0, 0, 255⟩)

/-- 100x100 gray reference raster (for the dimension-mismatch scenario). -/
def ref100 : Raster := List.replicate 100 (List.replicate 100 ⟨90, 90, 90⟩)


/-! Helper lemmas shared by several developments below. -/

lemma filter_id_replicate_false (w : Nat) : (List.replicate w false).filter id = [] := by
  induction w with
  | zero => rfl
  | succ n ih => simp [List.replicate_succ, ih]

lemma gridCount_uniform (pred : Pixel → Bool) (p : Pixel) (hp : pred p = false)
    (h w : Nat) : gridCount (gridMap pred (List.replicate h (List.replicate w p))) = 0 := by
  induction h with
  | zero => rfl
  | succ n ih =>
    simp only [gridMap, gridCount, List.replicate_succ, List.map_cons, List.sum_cons] at *
    rw [List.map_replicate, hp, filter_id_replicate_false]
    simpa using ih

lemma ratioBound (w f : Nat) :
    0 ≤ (w : ℚ) / ((w + f : Nat) : ℚ) ∧ (w : ℚ) / ((w + f : Nat) : ℚ) ≤ 1 := by
  constructor
  · positivity
  · rcases Nat.eq_zero_or_pos (w + f) with h | h
    · simp [h]
    · rw [div_le_one (by exact_mod_cast h)]
      exact_mod_cast Nat.le_add_right w f

/-- C2: for every pixel, the combined-mask Window rule and the Wall rule are
never both true: Window needs `R > B + 30` while Wall needs `B > R + 15`. -/
theorem window_wall_exclusive (p : Pixel) :
    (RunPipeline.window_mask p && RunPipeline.wall_mask p) = false ∧
    (Oneshot.window_mask p && Oneshot.wall_mask p) = false := by
  rcases p with ⟨r, g, b⟩
  refine ⟨Bool.eq_false_iff.mpr ?_, Bool.eq_false_iff.mpr ?_⟩ <;>
  · intro h
    simp only [RunPipeline.window_mask, RunPipeline.wall_mask, Oneshot.window_mask,
      Oneshot.wall_mask, Bool.and_eq_true, Bool.or_eq_true, decide_eq_true_eq] at h
    omega

/-- C10: the simplified wall predicate `bm` of `make_visualization` selects
the same pixels as the full wall predicate of `count_pixels`: for every
pixel, `B > 60` already forces `B > G` or `G > 60`. -/
theorem wall_pred_equiv (p : Pixel) : RunPipeline.bm p = RunPipeline.wall_mask p := by
  rcases p with ⟨r, g, b⟩
  simp only [RunPipeline.bm, RunPipeline.wall_mask]
  by_cases h1 : 60 < b
  · by_cases h2 : r + 15 < b
    · have h3 : g < b ∨ 60 < g := by omega
      rcases h3 with h3 | h3 <;> simp [h1, h2, h3]
    · simp [h2]
  · simp [h1]

/-- C4: at the mask pixel `(50,0,0)` over the reference pixel `(0,0,0)`, the
overlay-delta Window rule documented by the spec and the `step3_calculate.py`
docstring accepts the pixel, while every window-classification rule actually
present in the source rejects it: no selectable strategy of the code computes
`mask.R - reference.R > 30`. -/
theorem overlay_delta_divergence :
    overlay_window_delta ⟨50, 0, 0⟩ ⟨0, 0, 0⟩ = true ∧
    StepCalc.window_mask ⟨50, 0, 0⟩ = false ∧
    RunPipeline.window_mask ⟨50, 0, 0⟩ = false ∧
    RunPipeline.wm ⟨50, 0, 0⟩ = false ∧
    Oneshot.window_mask ⟨50, 0, 0⟩ = false ∧
    StepSegment.close_to ⟨255, 0, 0⟩ 80 ⟨50, 0, 0⟩ = false := by
  decide

/-- C8 counterexample: the facade tint of `calculate_ratio` (line 68) keeps
70% of the original pixel, so at the gray pixel `(100,100,100)` it yields
`(85,100,146)`, not the 50/50 wall blend `(75,100,177)` the spec mandates
for every compositing path. -/
theorem wall_blend_cex :
    StepCalc.facade_tint ⟨100, 100, 100⟩ = ⟨85, 100, 146⟩ ∧
    spec_wall_blend ⟨100, 100, 100⟩ ⟨50, 100, 255⟩ = ⟨75, 100, 177⟩ ∧
    StepCalc.facade_tint ⟨100, 100, 100⟩ ≠ spec_wall_blend ⟨100, 100, 100⟩ ⟨50, 100, 255⟩ := by
  decide

/-- C8 (amended): the Window tint is 70% highlight / 30% original in all
three compositing paths, and the Wall tint is 50/50 in `make_visualization`
and `analyze_building`; but the wall-role (facade) tint of
`calculate_ratio` is 30% highlight / 70% original. -/
theorem blend_paths_amended (p : Pixel) :
    RunPipeline.window_tint p = spec_window_blend p ⟨255, 30, 30⟩ ∧
    RunPipeline.wall_tint p = spec_wall_blend p ⟨50, 100, 255⟩ ∧
    Oneshot.window_tint p = spec_window_blend p ⟨255, 30, 30⟩ ∧
    Oneshot.wall_tint p = spec_wall_blend p ⟨50, 100, 255⟩ ∧
    StepCalc.window_tint p = spec_window_blend p ⟨255, 30, 30⟩ ∧
    StepCalc.facade_tint p = blendPixel 7 3 p ⟨50, 100, 255⟩ :=
  ⟨rfl, rfl, rfl, rfl, rfl, rfl⟩

/-- C9: the compositing state updates of all three visualization paths write
only to the working copy (`vis` in `calculate_ratio`, `orig` in
`make_visualization` and `analyze_building`); every input raster field is
returned unchanged. -/
theorem inputs_not_mutated (s1 : StepCalc.VisState) (s2 : RunPipeline.VisState)
    (s3 : Oneshot.VisState) :
    (StepCalc.vis_update s1).orig = s1.orig ∧
    (StepCalc.vis_update s1).windows_img = s1.windows_img ∧
    (StepCalc.vis_update s1).facade_img = s1.facade_img ∧
    (RunPipeline.vis_update s2).base = s2.base ∧
    (RunPipeline.vis_update s2).mask_img = s2.mask_img ∧
    (Oneshot.vis_update s3).cleaned = s3.cleaned ∧
    (Oneshot.vis_update s3).mask = s3.mask :=
  ⟨rfl, rfl, rfl, rfl, rfl, rfl, rfl⟩

/-- C7: on the 10x10 combined mask with five red and five blue pixels in
row 0 and black elsewhere, both the pipeline counter and the one-shot
analyzer report 5 window pixels, 5 wall pixels, 10 facade pixels and a
window ratio of 1/2. -/
theorem combined_mask_scenario_10x10 :
    (RunPipeline.count_pixels mask10).window_px = 5 ∧
    (RunPipeline.count_pixels mask10).wall_px = 5 ∧
    (Oneshot.analyze_counts mask10).window_pixels = 5 ∧
    (Oneshot.analyze_counts mask10).wall_pixels = 5 ∧
    (Oneshot.analyze_counts mask10).facade_pixels = 10 ∧
    (Oneshot.analyze_counts mask10).window_ratio = 1 / 2 ∧
    (Oneshot.analyze_counts mask10).no_facade = false := by
  refine ⟨by decide, by decide, by decide, by decide, by decide, ?_, by decide⟩
  have h1 : gridCount (gridMap Oneshot.window_mask mask10) = 5 := by decide
  have h2 : gridCount (gridMap Oneshot.wall_mask mask10) = 5 := by decide
  simp only [Oneshot.analyze_counts, h1, h2]
  norm_num

/-- C1 (amended): the ratio bound holds in the combined-mask workflows, where
the facade count is the sum of the window and wall counts: whenever
`facade > 0` the ratio of `run_pipeline.run` and of `analyze_building` lies
in [0,1].  (It fails in the two-mask workflow of `calculate_ratio`, where the
two counts are independent; see the counterexample.) -/
theorem ratio_bound_combined (arr : Raster) :
    (0 < (RunPipeline.run_counts arr).facade_px →
      0 ≤ (RunPipeline.run_counts arr).w_ratio ∧ (RunPipeline.run_counts arr).w_ratio ≤ 1) ∧
    (0 < (Oneshot.analyze_counts arr).facade_pixels →
      0 ≤ (Oneshot.analyze_counts arr).window_ratio ∧
        (Oneshot.analyze_counts arr).window_ratio ≤ 1) := by
  constructor
  · intro h
    have hf : (RunPipeline.run_counts arr).facade_px =
        (RunPipeline.count_pixels arr).window_px + (RunPipeline.count_pixels arr).wall_px := by
      simp only [RunPipeline.run_counts]
      split <;> rfl
    rw [hf] at h
    have hr : (RunPipeline.run_counts arr).w_ratio =
        ((RunPipeline.count_pixels arr).window_px : ℚ) /
          (((RunPipeline.count_pixels arr).window_px + (RunPipeline.count_pixels arr).wall_px : Nat) : ℚ) := by
      simp only [RunPipeline.run_counts]
      rw [if_pos h]
    rw [hr]
    exact ratioBound _ _
  · intro h
    have hf : (Oneshot.analyze_counts arr).facade_pixels =
        gridCount (gridMap Oneshot.window_mask arr) + gridCount (gridMap Oneshot.wall_mask arr) := by
      simp only [Oneshot.analyze_counts]
      split <;> rfl
    rw [hf] at h
    have hr : (Oneshot.analyze_counts arr).window_ratio =
        (gridCount (gridMap Oneshot.window_mask arr) : ℚ) /
          ((gridCount (gridMap Oneshot.window_mask arr) + gridCount (gridMap Oneshot.wall_mask arr) : Nat) : ℚ) := by
      simp only [Oneshot.analyze_counts]
      rw [if_pos h]
    rw [hr]
    exact ratioBound _ _

/-- Witness for C1 at the concrete 10x10 combined mask. -/
theorem ratio_bound_combined_witness :
    (0 < (RunPipeline.run_counts mask10).facade_px ∧
      0 ≤ (RunPipeline.run_counts mask10).w_ratio ∧ (RunPipeline.run_counts mask10).w_ratio ≤ 1) ∧
    (0 < (Oneshot.analyze_counts mask10).facade_pixels ∧
      0 ≤ (Oneshot.analyze_counts mask10).window_ratio ∧
        (Oneshot.analyze_counts mask10).window_ratio ≤ 1) :=
  ⟨⟨by decide, (ratio_bound_combined mask10).1 (by decide)⟩,
   ⟨by decide, (ratio_bound_combined mask10).2 (by decide)⟩⟩

/-- C1 counterexample: in the two-mask workflow of `calculate_ratio`, a 1x2
windows mask with pixels `(255,0,0)`, `(100,0,0)` against an all-blue facade
mask yields `window_pixels = 2`, `facade_pixels = 1` (the first facade pixel
is excluded because the windows mask has `R > 150` there), so the computed
ratio is 2 — a classification result with `facade_pixels > 0` whose ratio
exceeds 1. -/
theorem ratio_bound_two_mask_cex :
    0 < (StepCalc.calculate_ratio_counts twoPixelWindows twoPixelFacade).facade_pixels ∧
    ¬((StepCalc.calculate_ratio_counts twoPixelWindows twoPixelFacade).ratio ≤ 1) := by
  have h1 : gridCount (gridMap StepCalc.window_mask twoPixelWindows) = 2 := by decide
  have h2 : gridCount (gridMap2 StepCalc.facade_mask twoPixelWindows twoPixelFacade) = 1 := by
    decide
  constructor
  · decide
  · simp only [StepCalc.calculate_ratio_counts, h1, h2]
    norm_num

/-- C3 counterexample: on a 10x10 all-red windows mask and all-blue facade
mask, `calculate_ratio` does not return `facade_pixels = 100` with ratio 1:
the red-exclusion step `facade_mask & ~(windows_img[:,:,0] > 150)` empties
the facade mask, so `facade_pixels = 0`. -/
theorem two_mask_all_red_blue_cex :
    ¬((StepCalc.calculate_ratio_counts allRed10 allBlue10).window_pixels = 100 ∧
      (StepCalc.calculate_ratio_counts allRed10 allBlue10).facade_pixels = 100 ∧
      (StepCalc.calculate_ratio_counts allRed10 allBlue10).ratio = 1) := by
  intro h
  exact absurd h.2.1 (by decide)

/-- C3 (amended): on the all-red windows mask and all-blue facade mask,
`calculate_ratio` counts 100 window pixels but 0 facade pixels (every facade
pixel is excluded because the windows mask has `R = 255 > 150` everywhere),
takes the no-facade branch with ratio 0, and never assigns `wall_pixels`. -/
theorem two_mask_all_red_blue_amended :
    (StepCalc.calculate_ratio_counts allRed10 allBlue10).window_pixels = 100 ∧
    (StepCalc.calculate_ratio_counts allRed10 allBlue10).facade_pixels = 0 ∧
    (StepCalc.calculate_ratio_counts allRed10 allBlue10).wall_pixels = none ∧
    (StepCalc.calculate_ratio_counts allRed10 allBlue10).ratio = 0 ∧
    (StepCalc.calculate_ratio_counts allRed10 allBlue10).no_facade = true := by
  have h1 : gridCount (gridMap StepCalc.window_mask allRed10) = 100 := by decide
  have h2 : gridCount (gridMap2 StepCalc.facade_mask allRed10 allBlue10) = 0 := by decide
  refine ⟨by decide, by decide, by decide, ?_, by decide⟩
  simp only [StepCalc.calculate_ratio_counts, h1, h2]
  norm_num

/-- C6: on an all-black mask of any dimensions, both combined-mask pipelines
count 0 window, 0 wall and 0 facade pixels and take the distinguished
no-facade branch, in which the ratio is set to 0 without any division. -/
theorem all_black_no_facade (h w : Nat) :
    (RunPipeline.run_counts (allBlack h w)).window_px = 0 ∧
    (RunPipeline.run_counts (allBlack h w)).wall_px = 0 ∧
    (RunPipeline.run_counts (allBlack h w)).facade_px = 0 ∧
    (RunPipeline.run_counts (allBlack h w)).w_ratio = 0 ∧
    (RunPipeline.run_counts (allBlack h w)).no_facade = true ∧
    (Oneshot.analyze_counts (allBlack h w)).window_pixels = 0 ∧
    (Oneshot.analyze_counts (allBlack h w)).wall_pixels = 0 ∧
    (Oneshot.analyze_counts (allBlack h w)).facade_pixels = 0 ∧
    (Oneshot.analyze_counts (allBlack h w)).window_ratio = 0 ∧
    (Oneshot.analyze_counts (allBlack h w)).no_facade = true := by
  have hw : gridCount (gridMap RunPipeline.window_mask (allBlack h w)) = 0 :=
    gridCount_uniform _ _ (by decide) h w
  have hb : gridCount (gridMap RunPipeline.wall_mask (allBlack h w)) = 0 :=
    gridCount_uniform _ _ (by decide) h w
  have hw2 : gridCount (gridMap Oneshot.window_mask (allBlack h w)) = 0 :=
    gridCount_uniform _ _ (by decide) h w
  have hb2 : gridCount (gridMap Oneshot.wall_mask (allBlack h w)) = 0 :=
    gridCount_uniform _ _ (by decide) h w
  simp only [RunPipeline.run_counts, RunPipeline.count_pixels, Oneshot.analyze_counts,
    hw, hb, hw2, hb2]
  norm_num

lemma gridShape_gridMap2 (pred : Pixel → Pixel → Bool) (a b : Raster)
    (hab : gridShape a = gridShape b) : gridShape (gridMap2 pred a b) = gridShape a := by
  induction a generalizing b with
  | nil => simp [gridMap2, gridShape]
  | cons r rs ih =>
    cases b with
    | nil => simp [gridShape] at hab
    | cons s ss =>
      simp only [gridShape, List.map_cons, List.cons.injEq] at hab
      obtain ⟨hlen, hrest⟩ := hab
      simp only [gridMap2, gridShape, List.zip_cons_cons, List.map_cons, List.cons.injEq]
      refine ⟨?_, ?_⟩
      · simp [List.length_zip, hlen]
      · simpa [gridMap2, gridShape] using ih ss hrest

lemma maskedAssign_error (tint : Pixel → Pixel) (mask : BoolGrid) (img : Raster)
    (h : gridShape mask ≠ gridShape img) :
    maskedAssign tint mask img = Except.error VisError.DimensionMismatch := by
  simp [maskedAssign, h]

/-- C5: in the overlay path of `calculate_ratio` there is no resize step, so
when the masks and the reference raster have different shapes the first
masked assignment of the visualization (`vis[facade_mask] = ...`) fails with
the dimension-mismatch error (numpy's IndexError for a boolean index whose
shape differs from the array). -/
theorem vis_dimension_mismatch (windows_img facade_img vis : Raster)
    (h1 : gridShape windows_img = gridShape facade_img)
    (h2 : gridShape facade_img ≠ gridShape vis) :
    StepCalc.calc_visualization windows_img facade_img vis =
      Except.error VisError.DimensionMismatch := by
  have hs : gridShape (gridMap2 StepCalc.facade_mask windows_img facade_img) =
      gridShape windows_img := gridShape_gridMap2 _ _ _ h1
  have herr : maskedAssign StepCalc.facade_tint
      (gridMap2 StepCalc.facade_mask windows_img facade_img) vis =
      Except.error VisError.DimensionMismatch := by
    apply maskedAssign_error
    rw [hs, h1]
    exact h2
  simp only [StepCalc.calc_visualization, herr]
  rfl

/-- Witness for C5: 50x50 windows and facade masks against a 100x100
reference fail with the dimension-mismatch error. -/
theorem vis_dimension_mismatch_witness :
    gridShape wmask50 = gridShape fmask50 ∧ gridShape fmask50 ≠ gridShape ref100 ∧
    StepCalc.calc_visualization wmask50 fmask50 ref100 =
      Except.error VisError.DimensionMismatch :=
  ⟨by decide, by decide, vis_dimension_mismatch wmask50 fmask50 ref100 (by decide) (by decide)⟩
